import Mathlib

/-!
Shallow embedding of the IoTMAG_graph frontend
(src/frontend/src/App.jsx and src/frontend/src/components/KnowledgeGraph.jsx).

Numbers that JavaScript holds as IEEE doubles are modelled as exact
rationals (`ℚ`); every literal the claims touch (0.5, 0.3, 0.9, pixel
thresholds) is exactly representable, so no rounding separates the model
from the source on the inputs considered. Non-integer rational literals
are written `mkRat a b` so that concrete evaluation stays within
kernel-reducible operations. Millisecond timestamps are modelled as `ℤ`.
-/

/-- A 2D point, as used for cached node positions and canvas geometry. -/
structure Pt where
  x : ℚ
  y : ℚ
deriving DecidableEq

/-- A canvas fill/stroke colour with alpha: the canvas interpretation of the
CSS colour strings the source assigns to the fillStyle / strokeStyle
properties of the drawing context. -/
structure RGBA where
  r : ℕ
  g : ℕ
  b : ℕ
  a : ℚ
deriving DecidableEq

/-- The string "#999999" in KnowledgeGraph.jsx linkCanvasObject: the edge
line colour (hex colours carry alpha 1). -/
def gray999 : RGBA := ⟨153, 153, 153, 1⟩

/-- The string "rgba(255, 255, 255, 0.9)" in KnowledgeGraph.jsx
linkCanvasObject: the label background colour, white at 90 percent alpha. -/
def whiteA90 : RGBA := ⟨255, 255, 255, mkRat 9 10⟩

/-- The string "#444" in KnowledgeGraph.jsx linkCanvasObject: the label text
colour (shorthand hex for #444444, alpha 1). -/
def gray444 : RGBA := ⟨68, 68, 68, 1⟩

/-- Pads a remainder below 100 to two digits, as decimal formatting does. -/
def pad2 (r : ℕ) : String :=
  (if r < 10 then "0" else "") ++ toString r

/-- JavaScript number.toFixed(2): the integer n minimising the distance from
n/100 to the number, ties resolved to the larger n (ECMA-262
Number.prototype.toFixed), rendered with two digits after the point. On a
rational q that n is the floor of 100q + 1/2, written below as the floor
division of integers 200 num + den by 2 den so that it evaluates by kernel
reduction alone. -/
def toFixed2 (q : ℚ) : String :=
  let n : ℤ := Int.fdiv (200 * q.num + q.den) (2 * q.den)
  if n < 0 then
    "-" ++ toString (n.natAbs / 100) ++ "." ++ pad2 (n.natAbs % 100)
  else
    toString (n.toNat / 100) ++ "." ++ pad2 (n.toNat % 100)

/-- JavaScript string.toLowerCase() restricted to the ASCII range covered by
the node-type strings: each character mapped to lower case over the
underlying character list. -/
def jsToLower (s : String) : String :=
  String.mk (s.data.map Char.toLower)

/-- A JavaScript value as getNodeColor can produce one: bracket access on an
object literal traverses the prototype chain, so besides the colour strings
of the literal the lookup can surface an inherited Object.prototype member.
The key has already been lower-cased, and the only Object.prototype member
names written entirely in lower case are constructor and the accessor
named two underscores, proto, two underscores; every other member name
(toString, valueOf, hasOwnProperty, isPrototypeOf, propertyIsEnumerable,
toLocaleString, the getter and setter definers) contains an upper-case
letter and can never match a lower-cased key. Both reachable inherited
values — the Object constructor function and the Object.prototype object —
are truthy and are not strings. -/
inductive JSValue where
  | str (s : String)
  | inheritedConstructor
  | inheritedProto
deriving DecidableEq

/-- getNodeColor from KnowledgeGraph.jsx: bracket lookup of the colors
object literal at the lower-cased type. Own properties of the literal are
found first; a key matching no own property falls through to the
Object.prototype chain, where (after lower-casing) exactly the keys
constructor and underscore-underscore-proto-underscore-underscore resolve,
to truthy non-string values. A missing type makes the key undefined, which
matches nothing own or inherited. Every own colour value is a non-empty
string (truthy) and the inherited values are truthy too, so the expression
colors at key, or else colors.default, returns the found value when the
lookup resolves and "#666666" only when it yields undefined. -/
def getNodeColor (ntype : Option String) : JSValue :=
  let ownProperty : String → Option String := fun t =>
    if t = "person" then some "#ff6b6b"
    else if t = "topic" then some "#4ecdc4"
    else if t = "interest" then some "#45b7d1"
    else if t = "activity" then some "#96ceb4"
    else if t = "skill" then some "#ffd93d"
    else if t = "tool" then some "#6c5ce7"
    else if t = "concept" then some "#a8e6cf"
    else if t = "organization" then some "#ff8b94"
    else if t = "default" then some "#666666"
    else none
  match ntype with
  | none => JSValue.str "#666666"
  | some s =>
    match ownProperty (jsToLower s) with
    | some c => JSValue.str c
    | none =>
      if jsToLower s = "constructor" then JSValue.inheritedConstructor
      else if jsToLower s = "__proto__" then JSValue.inheritedProto
      else JSValue.str "#666666"

/-- A node of the backend payload. The type field is optional (getNodeColor
guards it with optional chaining); x and y are optional coordinates that the
object spread in the adapter would carry through if present. -/
structure InputNode where
  id : String
  name : String
  type : Option String
  x : Option ℚ := none
  y : Option ℚ := none
deriving DecidableEq

/-- An edge of the backend payload. -/
structure InputEdge where
  source : String
  target : String
  type : String
  weight : ℚ
deriving DecidableEq

/-- A link as emitted by the adapter (graphData.links). -/
structure RenderLink where
  source : String
  target : String
  label : String
  weight : ℚ
  type : String
deriving DecidableEq

/-- graphData.links from KnowledgeGraph.jsx: each edge mapped to a link with
the same source, target, type and weight, and a label composed of the type,
a space, and the weight via toFixed(2) in parentheses. -/
def graphDataLinks (edges : List InputEdge) : List RenderLink :=
  edges.map fun edge =>
    { source := edge.source
      target := edge.target
      label := edge.type ++ " (" ++ toFixed2 edge.weight ++ ")"
      weight := edge.weight
      type := edge.type }

/-- The link that the wording of the spec describes for a given edge: same
source, target, type and weight, and a label of the form
type (weight formatted to 2 decimals). -/
def specLink (edge : InputEdge) : RenderLink :=
  { source := edge.source
    target := edge.target
    label := edge.type ++ " (" ++ toFixed2 edge.weight ++ ")"
    weight := edge.weight
    type := edge.type }

/-- The id-keyed position cache (the nodePositions React state): a map from
node id to saved coordinates. Updates override by key, as object spread
does. -/
def NodeCache := String → Option Pt

/-- A node as the force simulation holds it: current position, optional
pinned coordinates fx/fy, optional velocity components (undefined until the
engine or addRandomForce writes them). -/
structure SimNode where
  id : String
  x : ℚ
  y : ℚ
  fx : Option ℚ
  fy : Option ℚ
  vx : Option ℚ
  vy : Option ℚ
deriving DecidableEq

/-- JavaScript falsiness of an optional number: undefined and 0 are falsy
(NaN does not arise in the model). -/
def jsFalsy (v : Option ℚ) : Bool :=
  match v with
  | none => true
  | some q => decide (q = 0)

/-- JavaScript value-or-zero: the expression v or else 0, which yields 0
exactly when v is falsy. -/
def jsOrZero (v : Option ℚ) : ℚ :=
  match v with
  | none => 0
  | some q => q

/-- addRandomForce from KnowledgeGraph.jsx. The parameters c and s stand for
the cosine and sine of the random angle (Math.random() times two pi); the
impulse magnitude is the literal 0.3. The guard is the JavaScript test
"not node.fx and not node.fy", that is, falsiness of both pinned
coordinates. -/
def addRandomForce (node : SimNode) (c s : ℚ) : SimNode :=
  if jsFalsy node.fx && jsFalsy node.fy then
    { node with
      vx := some (jsOrZero node.vx + c * mkRat 3 10)
      vy := some (jsOrZero node.vy + s * mkRat 3 10) }
  else node

/-- onNodeDragEnd from KnowledgeGraph.jsx: pins the node at its current
position (fx and fy set to x and y) and saves that position in the id-keyed
cache, overriding any previous entry for the id. -/
def onNodeDragEnd (node : SimNode) (cache : NodeCache) : SimNode × NodeCache :=
  ({ node with fx := some node.x, fy := some node.y },
   fun k => if k = node.id then some ⟨node.x, node.y⟩ else cache k)

/-- A node as emitted by the adapter (graphData.nodes): the input fields
carried through by the object spread, a colour from getNodeColor, the fixed
size 8, and optionally the cached position applied to x, y, fx and fy. -/
structure RenderNode where
  id : String
  name : String
  type : Option String
  color : JSValue
  size : ℚ
  x : Option ℚ
  y : Option ℚ
  fx : Option ℚ
  fy : Option ℚ
deriving DecidableEq

/-- graphData.nodes from KnowledgeGraph.jsx, for one node: spread of the
input node, colour from getNodeColor, size 8, and, when the cache holds the
id, x, y, fx and fy all set from the cached position. -/
def adaptNode (cache : NodeCache) (n : InputNode) : RenderNode :=
  let base : RenderNode :=
    { id := n.id, name := n.name, type := n.type
      color := getNodeColor n.type, size := 8
      x := n.x, y := n.y, fx := none, fy := none }
  match cache n.id with
  | some p => { base with x := some p.x, y := some p.y, fx := some p.x, fy := some p.y }
  | none => base

/-- graphData.nodes from KnowledgeGraph.jsx over the whole payload. -/
def graphDataNodes (cache : NodeCache) (nodes : List InputNode) : List RenderNode :=
  nodes.map (adaptNode cache)

/-- Modelled from the spec: the per-tick position update of the layout
engine (react-force-graph over d3-force), which is an external dependency
and not part of this repository. The spec states that a pinned position is
"a node coordinate fixed by user interaction, exempt from physics
relaxation": a coordinate with fx (resp. fy) set stays at that value and its
velocity component is cleared, an unpinned coordinate advances by its
velocity. -/
def simTick (n : SimNode) : SimNode :=
  { n with
    x := match n.fx with | some fixedX => fixedX | none => n.x + jsOrZero n.vx
    y := match n.fy with | some fixedY => fixedY | none => n.y + jsOrZero n.vy
    vx := match n.fx with | some _ => some 0 | none => n.vx
    vy := match n.fy with | some _ => some 0 | none => n.vy }

/-- A flat trace of the canvas calls issued by a draw callback; the push and
pop constructors record the save, translate, rotate and restore bracketing
of the rotated label frame. The rotation angle atan2 of dy, dx is recorded
by the vector dx, dy that defines it, keeping the trace rational. -/
inductive CanvasOp
  | strokeLine (x1 y1 x2 y2 : ℚ) (color : RGBA) (lineWidth : ℚ)
  | fillRect (x y w h : ℚ) (color : RGBA)
  | fillText (text : String) (x y : ℚ) (color : RGBA)
  | pushTransform (tx ty dx dy : ℚ)
  | popTransform
deriving DecidableEq

/-- linkCanvasObject from KnowledgeGraph.jsx. The source compares the
Euclidean distance dist against 50 and 40; the model compares the squared
distance against 2500 and 1600, which is equivalent for a nonnegative
distance and keeps the trace rational. The text width measurements of the
canvas are inputs (typeWidth, weightWidth). -/
def linkCanvasObject (startP endP : Pt) (ltype : String) (weight : ℚ)
    (typeWidth weightWidth : ℚ) : List CanvasOp :=
  [CanvasOp.strokeLine startP.x startP.y endP.x endP.y gray999 (mkRat 3 10)]
  ++ (if (endP.x - startP.x) * (endP.x - startP.x)
        + (endP.y - startP.y) * (endP.y - startP.y) > 2500 then
        [CanvasOp.pushTransform ((startP.x + endP.x) / 2) ((startP.y + endP.y) / 2)
          (endP.x - startP.x) (endP.y - startP.y),
         CanvasOp.fillRect (-(typeWidth / 2) - 2) (-8) (typeWidth + 4) 6 whiteA90,
         CanvasOp.fillText ltype 0 (-5) gray444,
         CanvasOp.popTransform]
      else [])
  ++ (if (endP.x - startP.x) * (endP.x - startP.x)
        + (endP.y - startP.y) * (endP.y - startP.y) > 1600 then
        [CanvasOp.fillRect ((startP.x + endP.x) / 2 - weightWidth / 2 - 2)
          ((startP.y + endP.y) / 2 - 2) (weightWidth + 4) 6 whiteA90,
         CanvasOp.fillText (toFixed2 weight) ((startP.x + endP.x) / 2)
          ((startP.y + endP.y) / 2) gray444]
      else [])

/-- The colours of the background rectangles of a canvas trace, in order. -/
def fillRectColors : List CanvasOp → List RGBA
  | [] => []
  | CanvasOp.fillRect _ _ _ _ c :: rest => c :: fillRectColors rest
  | _ :: rest => fillRectColors rest

/-- The text strings drawn by a canvas trace, in order. -/
def textsDrawn : List CanvasOp → List String
  | [] => []
  | CanvasOp.fillText t _ _ _ :: rest => t :: textsDrawn rest
  | _ :: rest => textsDrawn rest

/-- The backend payload held in the graphData React state. -/
structure GraphPayload where
  nodes : List InputNode
  edges : List InputEdge
deriving DecidableEq

/-- The React state of App.jsx that the claims concern. -/
structure AppState where
  graphData : Option GraphPayload
  message : String
  loading : Bool
  error : Option String
deriving DecidableEq

/-- The possible completions of the GET in fetchGraphData: a parsed payload,
a non-2xx status, a JSON.parse failure with the thrown message, or a network
failure with the thrown message. -/
inductive FetchOutcome
  | ok (data : GraphPayload)
  | httpError (status : ℕ)
  | invalidJson (msg : String)
  | networkError (msg : String)
deriving DecidableEq

/-- The possible completions of the POST in handleSubmit: success followed
by the re-fetch with its own outcome; a non-2xx response whose body either
parses as JSON with an optional detail field or fails to parse with the
thrown message; or a network failure with the thrown message. -/
inductive PostOutcome
  | success (refetch : FetchOutcome)
  | httpError (body : Except String (Option String))
  | networkError (msg : String)

/-- fetchGraphData from App.jsx as a state transition: clear the error, then
on success replace graphData wholesale; on any caught failure set the error
to the thrown message (for a non-2xx status the thrown message interpolates
the status code) and leave graphData untouched. -/
def fetchGraphData (s : AppState) (outcome : FetchOutcome) : AppState :=
  let s1 := { s with error := none }
  match outcome with
  | .ok data => { s1 with graphData := some data }
  | .httpError status => { s1 with error := some ("HTTP error! status: " ++ toString status) }
  | .invalidJson msg => { s1 with error := some msg }
  | .networkError msg => { s1 with error := some msg }

/-- The first two statements of handleSubmit: setLoading(true) and
setError(null), before the try block. -/
def handleSubmitStart (s : AppState) : AppState :=
  { s with loading := true, error := none }

/-- JavaScript string-or-else: the left operand unless it is falsy (the
empty string), in which case the right operand. -/
def jsOrElse (s fallback : String) : String :=
  if s = "" then fallback else s

/-- handleSubmit from App.jsx as a state transition over a completion
outcome: set loading and clear the error; on success run fetchGraphData on
the re-fetch outcome and clear the message; on a non-2xx response whose body
parsed, throw the detail field or else the generic message (an absent or
empty detail is falsy); on a body that failed to parse, or a network
failure, throw that message; every thrown message lands in the error state
via the catch; finally clear loading. -/
def handleSubmit (s : AppState) (outcome : PostOutcome) : AppState :=
  let s1 := handleSubmitStart s
  let s2 :=
    match outcome with
    | .success refetch => { fetchGraphData s1 refetch with message := "" }
    | .httpError (.ok detail) =>
        { s1 with error := some (jsOrElse (detail.getD "") "Failed to process message") }
    | .httpError (.error parseMsg) => { s1 with error := some parseMsg }
    | .networkError msg => { s1 with error := some msg }
  { s2 with loading := false }

/-- The disabled attribute of the submit button in App.jsx: loading, or the
message text falsy (the empty string). -/
def submitDisabled (loading : Bool) (message : String) : Bool :=
  loading || message == ""

/-- getTimestamp from App.jsx over millisecond timestamps: the switch on the
time offset, written as the chain of equality tests it denotes. -/
def getTimestamp (now : ℤ) (timeOffset : String) : ℤ :=
  if timeOffset = "now" then now
  else if timeOffset = "1h" then now - 60 * 60 * 1000
  else if timeOffset = "1d" then now - 24 * 60 * 60 * 1000
  else if timeOffset = "1w" then now - 7 * 24 * 60 * 60 * 1000
  else if timeOffset = "1m" then now - 30 * 24 * 60 * 60 * 1000
  else now

/-- Claim C1: for every edge in the input payload, the adapter emits a link
with the same source, target, type and weight, plus a label equal to the
type, a space, and the weight formatted to 2 decimals in parentheses; in
particular the edge source a, target b, type related, weight 0.5 yields
exactly the link with label "related (0.50)". -/
theorem claim1_adapter_links :
    (∀ edges : List InputEdge, graphDataLinks edges = edges.map specLink) ∧
    (mkRat 1 2 : ℚ) = 1 / 2 ∧
    graphDataLinks [⟨"a", "b", "related", mkRat 1 2⟩] =
      [⟨"a", "b", "related (0.50)", mkRat 1 2, "related"⟩] := by
  refine ⟨fun edges => rfl, ?_, by decide⟩
  rw [Rat.mkRat_eq_divInt, Rat.divInt_eq_div]
  norm_num

/-- Claim C2 counterexample: the type strings constructor (in any case
variant) and the double-underscored proto name lie outside the enumeration,
yet getNodeColor returns the truthy inherited Object.prototype member that
JavaScript bracket access finds there — not the default gray "#666666" the
claim requires for every unrecognized type. -/
theorem claim2_counterexample :
    getNodeColor (some "constructor") = JSValue.inheritedConstructor ∧
    getNodeColor (some "Constructor") = JSValue.inheritedConstructor ∧
    getNodeColor (some "__proto__") = JSValue.inheritedProto ∧
    jsToLower "constructor" ∉ (["person", "topic", "interest", "activity",
      "skill", "tool", "concept", "organization"] : List String) ∧
    JSValue.inheritedConstructor ≠ JSValue.str "#666666" ∧
    JSValue.inheritedProto ≠ JSValue.str "#666666" := by decide

/-- Claim C2 as amended: for each type in the fixed enumeration,
getNodeColor returns the same fixed colour for every case variant of the
type string (case-insensitive and deterministic); a missing type yields the
default gray "#666666", and so does any type whose lower-casing is outside
the enumeration — except the two lower-case Object.prototype member names,
constructor and the double-underscored proto accessor, for which bracket
access surfaces the truthy inherited member instead of the default. -/
theorem claim2_node_colors :
    (∀ s, jsToLower s = "person" → getNodeColor (some s) = JSValue.str "#ff6b6b") ∧
    (∀ s, jsToLower s = "topic" → getNodeColor (some s) = JSValue.str "#4ecdc4") ∧
    (∀ s, jsToLower s = "interest" → getNodeColor (some s) = JSValue.str "#45b7d1") ∧
    (∀ s, jsToLower s = "activity" → getNodeColor (some s) = JSValue.str "#96ceb4") ∧
    (∀ s, jsToLower s = "skill" → getNodeColor (some s) = JSValue.str "#ffd93d") ∧
    (∀ s, jsToLower s = "tool" → getNodeColor (some s) = JSValue.str "#6c5ce7") ∧
    (∀ s, jsToLower s = "concept" → getNodeColor (some s) = JSValue.str "#a8e6cf") ∧
    (∀ s, jsToLower s = "organization" → getNodeColor (some s) = JSValue.str "#ff8b94") ∧
    (∀ s t, jsToLower s = jsToLower t → getNodeColor (some s) = getNodeColor (some t)) ∧
    (∀ s, jsToLower s ∉ (["person", "topic", "interest", "activity",
        "skill", "tool", "concept", "organization"] : List String) →
      jsToLower s ≠ "constructor" → jsToLower s ≠ "__proto__" →
      getNodeColor (some s) = JSValue.str "#666666") ∧
    (∀ s, jsToLower s = "constructor" →
      getNodeColor (some s) = JSValue.inheritedConstructor) ∧
    (∀ s, jsToLower s = "__proto__" → getNodeColor (some s) = JSValue.inheritedProto) ∧
    getNodeColor none = JSValue.str "#666666" := by
  refine ⟨?_, ?_, ?_, ?_, ?_, ?_, ?_, ?_, ?_, ?_, ?_, ?_, rfl⟩
  · intro s h; simp [getNodeColor, h]
  · intro s h; simp [getNodeColor, h]
  · intro s h; simp [getNodeColor, h]
  · intro s h; simp [getNodeColor, h]
  · intro s h; simp [getNodeColor, h]
  · intro s h; simp [getNodeColor, h]
  · intro s h; simp [getNodeColor, h]
  · intro s h; simp [getNodeColor, h]
  · intro s t h; simp only [getNodeColor]; rw [h]
  · intro s h hc hp
    simp only [getNodeColor]
    split_ifs <;> simp_all
  · intro s h; simp [getNodeColor, h]
  · intro s h; simp [getNodeColor, h]

/-- Claim C2 witness: concrete evaluations through the theorem, covering an
enumerated type in upper case, another in mixed case, and an unknown type
away from the inherited member names. -/
theorem claim2_witness :
    getNodeColor (some "PERSON") = JSValue.str "#ff6b6b" ∧
    getNodeColor (some "Skill") = JSValue.str "#ffd93d" ∧
    getNodeColor (some "mystery") = JSValue.str "#666666" :=
  ⟨claim2_node_colors.1 "PERSON" (by decide),
   claim2_node_colors.2.2.2.2.1 "Skill" (by decide),
   claim2_node_colors.2.2.2.2.2.2.2.2.2.1 "mystery" (by decide) (by decide) (by decide)⟩

/-- Claim C5: whenever the message text is the empty string the submit
control is disabled, and it is also disabled while a submission is in
flight (loading true). -/
theorem claim5_submit_disabled :
    ∀ (loading : Bool) (message : String),
      (message = "" → submitDisabled loading message = true) ∧
      (loading = true → submitDisabled loading message = true) := by
  intro l m
  constructor
  · intro h; subst h; simp [submitDisabled]
  · intro h; subst h; simp [submitDisabled]

/-- Claim C5 witness: the button is disabled for an empty message and while
loading. -/
theorem claim5_witness :
    submitDisabled false "" = true ∧ submitDisabled true "hello" = true :=
  ⟨(claim5_submit_disabled false "").1 rfl,
   (claim5_submit_disabled true "hello").2 rfl⟩

/-- Claim C6: getTimestamp maps each member of the time-filter enumeration
deterministically to an absolute timestamp relative to the current time
(now; 1 hour, 24 hours, 7 days, 30 days earlier), and any other value to
the current time; for a fixed current time it is a pure function of the
filter value. -/
theorem claim6_getTimestamp :
    ∀ now : ℤ,
      getTimestamp now "now" = now ∧
      getTimestamp now "1h" = now - 60 * 60 * 1000 ∧
      getTimestamp now "1d" = now - 24 * 60 * 60 * 1000 ∧
      getTimestamp now "1w" = now - 7 * 24 * 60 * 60 * 1000 ∧
      getTimestamp now "1m" = now - 30 * 24 * 60 * 60 * 1000 ∧
      ∀ s, s ∉ (["now", "1h", "1d", "1w", "1m"] : List String) →
        getTimestamp now s = now := by
  intro now
  refine ⟨rfl, rfl, rfl, rfl, rfl, ?_⟩
  intro s h
  simp only [getTimestamp]
  split_ifs with h1 h2 h3 h4 h5 <;> simp_all

/-- Claim C6 witness: concrete evaluations through the theorem. -/
theorem claim6_witness :
    getTimestamp 1000 "1h" = 1000 - 60 * 60 * 1000 ∧ getTimestamp 1000 "2h" = 1000 :=
  ⟨(claim6_getTimestamp 1000).2.1,
   (claim6_getTimestamp 1000).2.2.2.2.2 "2h" (by decide)⟩

/-- Claim C10: on every completion path of handleSubmit (successful POST
plus re-fetch, non-2xx response with a parsed or unparseable body, or
network error) the loading flag is false when the handler finishes, and
each attempt begins by setting loading and clearing the error state. -/
theorem claim10_loading_reset :
    ∀ (s : AppState) (outcome : PostOutcome),
      (handleSubmit s outcome).loading = false ∧
      (handleSubmitStart s).loading = true ∧
      (handleSubmitStart s).error = none := by
  intro s outcome
  refine ⟨?_, rfl, rfl⟩
  cases outcome with
  | success refetch => cases refetch <;> rfl
  | httpError body =>
    cases body with
    | error parseMsg => rfl
    | ok detail => cases detail <;> rfl
  | networkError msg => rfl

/-- Claim C3 counterexample: a failed POST caused by a network error leaves
the error state equal to the thrown fetch message, not the generic fallback
"Failed to process message" that the claim requires when no detail field is
present. -/
theorem claim3_counterexample :
    (handleSubmit ⟨some ⟨[], []⟩, "hi", false, none⟩
        (PostOutcome.networkError "Failed to fetch")).error = some "Failed to fetch" ∧
    "Failed to fetch" ≠ "Failed to process message" := by
  exact ⟨rfl, by decide⟩

/-- Claim C3 as amended: every failure path of handleSubmit leaves graphData
unchanged; on a non-2xx response whose body parses as JSON the error is the
detail field when present and non-empty, and the generic
"Failed to process message" when absent or empty; on a network error, or a
non-2xx body that fails to parse as JSON, the error is the thrown message
itself. -/
theorem claim3_failure_paths :
    ∀ s : AppState,
      (∀ d, d ≠ "" →
        (handleSubmit s (PostOutcome.httpError (Except.ok (some d)))).graphData = s.graphData ∧
        (handleSubmit s (PostOutcome.httpError (Except.ok (some d)))).error = some d) ∧
      ((handleSubmit s (PostOutcome.httpError (Except.ok none))).graphData = s.graphData ∧
       (handleSubmit s (PostOutcome.httpError (Except.ok none))).error =
         some "Failed to process message") ∧
      (handleSubmit s (PostOutcome.httpError (Except.ok (some "")))).error =
        some "Failed to process message" ∧
      (∀ m, (handleSubmit s (PostOutcome.httpError (Except.error m))).graphData = s.graphData ∧
            (handleSubmit s (PostOutcome.httpError (Except.error m))).error = some m) ∧
      (∀ m, (handleSubmit s (PostOutcome.networkError m)).graphData = s.graphData ∧
            (handleSubmit s (PostOutcome.networkError m)).error = some m) := by
  intro s
  refine ⟨?_, ⟨rfl, rfl⟩, rfl, fun m => ⟨rfl, rfl⟩, fun m => ⟨rfl, rfl⟩⟩
  intro d hd
  exact ⟨rfl, by simp [handleSubmit, handleSubmitStart, jsOrElse, hd]⟩

/-- Claim C3 witness: a concrete failed POST with a detail field through the
theorem. -/
theorem claim3_witness :
    (handleSubmit ⟨none, "", false, none⟩
        (PostOutcome.httpError (Except.ok (some "boom")))).error = some "boom" :=
  ((claim3_failure_paths ⟨none, "", false, none⟩).1 "boom" (by decide)).2

/-- Claim C4: ending a drag at the current position pins the node there
(fx and fy set to x and y) and stores the position in the id-keyed cache;
the position then survives the next simulation tick unchanged; and on every
subsequent adapter run, a node whose id is in the cache is emitted with x,
y, fx and fy equal to the cached coordinates. -/
theorem claim4_drag_pin :
    (∀ (node : SimNode) (cache : NodeCache),
      (onNodeDragEnd node cache).1.fx = some node.x ∧
      (onNodeDragEnd node cache).1.fy = some node.y ∧
      (onNodeDragEnd node cache).2 node.id = some ⟨node.x, node.y⟩) ∧
    (∀ (node : SimNode) (cache : NodeCache),
      (simTick (onNodeDragEnd node cache).1).x = node.x ∧
      (simTick (onNodeDragEnd node cache).1).y = node.y) ∧
    (∀ (cache : NodeCache) (n : InputNode) (p : Pt),
      cache n.id = some p →
      (adaptNode cache n).x = some p.x ∧ (adaptNode cache n).y = some p.y ∧
      (adaptNode cache n).fx = some p.x ∧ (adaptNode cache n).fy = some p.y) := by
  refine ⟨?_, ?_, ?_⟩
  · intro node cache
    exact ⟨rfl, rfl, by simp [onNodeDragEnd]⟩
  · intro node cache
    exact ⟨rfl, rfl⟩
  · intro cache n p h
    simp [adaptNode, h]

/-- Claim C4 witness: a concrete drag release and a concrete adapter run
over a cached id, through the theorem. -/
theorem claim4_witness :
    (onNodeDragEnd ⟨"a", 5, 7, none, none, none, none⟩ (fun _ => none)).1.fx = some 5 ∧
    (simTick (onNodeDragEnd ⟨"a", 5, 7, none, none, none, none⟩ (fun _ => none)).1).x = 5 ∧
    (adaptNode (fun k => if k = "a" then some ⟨3, 4⟩ else none)
        ⟨"a", "Alice", some "person", none, none⟩).fx = some 3 :=
  ⟨(claim4_drag_pin.1 ⟨"a", 5, 7, none, none, none, none⟩ (fun _ => none)).1,
   (claim4_drag_pin.2.1 ⟨"a", 5, 7, none, none, none, none⟩ (fun _ => none)).1,
   ((claim4_drag_pin.2.2 (fun k => if k = "a" then some ⟨3, 4⟩ else none)
      ⟨"a", "Alice", some "person", none, none⟩ ⟨3, 4⟩ (by decide)).2.2.1)⟩

/-- Claim C9, evaluated at the failing input: a node pinned at the origin
(fx and fy both set, both to 0) still receives the 0.3 velocity impulse,
because the guard of addRandomForce tests JavaScript falsiness of fx and fy
rather than their presence, and 0 is falsy. The claim (and the comment in
the source, only for nodes that are not fixed) says a pinned node is left
unchanged. -/
theorem claim9_pinned_origin_impulse :
    (addRandomForce ⟨"n1", 0, 0, some 0, some 0, some 0, some 0⟩ 1 0).fx = some 0 ∧
    (addRandomForce ⟨"n1", 0, 0, some 0, some 0, some 0, some 0⟩ 1 0).fy = some 0 ∧
    (addRandomForce ⟨"n1", 0, 0, some 0, some 0, some 0, some 0⟩ 1 0).vx =
      some (0 + 1 * mkRat 3 10) ∧
    (0 + 1 * mkRat 3 10 : ℚ) ≠ 0 := by
  refine ⟨rfl, rfl, rfl, ?_⟩
  rw [Rat.mkRat_eq_divInt, Rat.divInt_eq_div]
  norm_num

/-- Claim C7 counterexample: for a concrete long edge both labels are drawn,
and every label background rectangle is white at alpha 0.9 — no background
is opaque (alpha 1), contrary to the claim that both labels are drawn with
opaque backgrounds. -/
theorem claim7_counterexample :
    textsDrawn (linkCanvasObject ⟨0, 0⟩ ⟨100, 0⟩ "related" (mkRat 1 2) 10 10) =
      ["related", toFixed2 (mkRat 1 2)] ∧
    toFixed2 (mkRat 1 2) = "0.50" ∧
    fillRectColors (linkCanvasObject ⟨0, 0⟩ ⟨100, 0⟩ "related" (mkRat 1 2) 10 10) =
      [whiteA90, whiteA90] ∧
    whiteA90.a ≠ 1 := by
  refine ⟨?_, by decide, ?_, by decide⟩
  · norm_num [linkCanvasObject, textsDrawn]
  · norm_num [linkCanvasObject, fillRectColors]

/-- Claim C7 as amended: the relationship-type label is suppressed up to a
50 pixel distance and the weight label up to a 40 pixel distance (below 40,
a threshold within the 30 to 50 range, both are suppressed); when drawn,
each label sits at the segment midpoint (the type label in a frame
translated to the midpoint and rotated to the segment direction) over a
white background rectangle of alpha 0.9, near-opaque rather than opaque.
Distances are compared in squared form: 1600 and 2500 are the squares of
the 40 and 50 pixel thresholds of the source. -/
theorem claim7_labels :
    ((30 : ℚ) ≤ 40 ∧ (40 : ℚ) ≤ 50) ∧
    ∀ (startP endP : Pt) (ltype : String) (weight : ℚ) (typeWidth weightWidth : ℚ),
      ((endP.x - startP.x) * (endP.x - startP.x)
          + (endP.y - startP.y) * (endP.y - startP.y) ≤ 1600 →
        linkCanvasObject startP endP ltype weight typeWidth weightWidth =
          [CanvasOp.strokeLine startP.x startP.y endP.x endP.y gray999 (mkRat 3 10)]) ∧
      ((endP.x - startP.x) * (endP.x - startP.x)
          + (endP.y - startP.y) * (endP.y - startP.y) > 1600 →
       (endP.x - startP.x) * (endP.x - startP.x)
          + (endP.y - startP.y) * (endP.y - startP.y) ≤ 2500 →
        linkCanvasObject startP endP ltype weight typeWidth weightWidth =
          [CanvasOp.strokeLine startP.x startP.y endP.x endP.y gray999 (mkRat 3 10),
           CanvasOp.fillRect ((startP.x + endP.x) / 2 - weightWidth / 2 - 2)
             ((startP.y + endP.y) / 2 - 2) (weightWidth + 4) 6 whiteA90,
           CanvasOp.fillText (toFixed2 weight) ((startP.x + endP.x) / 2)
             ((startP.y + endP.y) / 2) gray444]) ∧
      ((endP.x - startP.x) * (endP.x - startP.x)
          + (endP.y - startP.y) * (endP.y - startP.y) > 2500 →
        linkCanvasObject startP endP ltype weight typeWidth weightWidth =
          [CanvasOp.strokeLine startP.x startP.y endP.x endP.y gray999 (mkRat 3 10),
           CanvasOp.pushTransform ((startP.x + endP.x) / 2) ((startP.y + endP.y) / 2)
             (endP.x - startP.x) (endP.y - startP.y),
           CanvasOp.fillRect (-(typeWidth / 2) - 2) (-8) (typeWidth + 4) 6 whiteA90,
           CanvasOp.fillText ltype 0 (-5) gray444,
           CanvasOp.popTransform,
           CanvasOp.fillRect ((startP.x + endP.x) / 2 - weightWidth / 2 - 2)
             ((startP.y + endP.y) / 2 - 2) (weightWidth + 4) 6 whiteA90,
           CanvasOp.fillText (toFixed2 weight) ((startP.x + endP.x) / 2)
             ((startP.y + endP.y) / 2) gray444]) := by
  refine ⟨⟨by norm_num, by norm_num⟩, ?_⟩
  intro startP endP ltype weight typeWidth weightWidth
  refine ⟨?_, ?_, ?_⟩
  · intro h
    simp only [linkCanvasObject]
    split_ifs <;> first | rfl | linarith
  · intro h h2
    simp only [linkCanvasObject]
    split_ifs <;> first | rfl | linarith
  · intro h
    simp only [linkCanvasObject]
    split_ifs <;> first | rfl | linarith

/-- Claim C7 witness: a concrete short edge through the theorem — only the
line is drawn, both labels suppressed. -/
theorem claim7_witness :
    linkCanvasObject ⟨0, 0⟩ ⟨10, 0⟩ "related" 1 5 5 =
      [CanvasOp.strokeLine 0 0 10 0 gray999 (mkRat 3 10)] :=
  (claim7_labels.2 ⟨0, 0⟩ ⟨10, 0⟩ "related" 1 5 5).1 (by norm_num)

/-- Claim C8 counterexample: two edges of different weight produce the very
same line stroke — colour #999999 at alpha 1 and width 0.3 — so opacity and
thickness do not vary with weight, and the width 0.3 is below the claimed
0.5 floor. -/
theorem claim8_counterexample :
    (linkCanvasObject ⟨0, 0⟩ ⟨100, 0⟩ "related" (mkRat 1 10) 10 10).head? =
      (linkCanvasObject ⟨0, 0⟩ ⟨100, 0⟩ "related" (mkRat 9 10) 10 10).head? ∧
    (linkCanvasObject ⟨0, 0⟩ ⟨100, 0⟩ "related" (mkRat 1 10) 10 10).head? =
      some (CanvasOp.strokeLine 0 0 100 0 gray999 (mkRat 3 10)) ∧
    mkRat 1 10 ≠ mkRat 9 10 ∧
    mkRat 3 10 < mkRat 1 2 := by
  exact ⟨rfl, rfl, by decide, by decide⟩

/-- Claim C8 as amended: every edge line is stroked with the fixed colour
#999999 at full alpha and the fixed width 0.3, independent of the edge
weight; 0.3 is below the 0.5 floor the claim states, and no weight scaling
exists. -/
theorem claim8_line_constant :
    ∀ (startP endP : Pt) (ltype : String) (weight : ℚ) (typeWidth weightWidth : ℚ),
      (linkCanvasObject startP endP ltype weight typeWidth weightWidth).head? =
        some (CanvasOp.strokeLine startP.x startP.y endP.x endP.y gray999 (mkRat 3 10)) ∧
      gray999.a = 1 ∧ mkRat 3 10 < mkRat 1 2 := by
  intro startP endP ltype weight typeWidth weightWidth
  exact ⟨rfl, rfl, by decide⟩
